import Mathlib

/-!
Shallow embedding of the statistical analysis layer of the
`movie-ratings-analysis` repository (modules `src/rating_analysis.py` and
`src/manipulation_detection.py`), together with theorems settling the
frozen claims about its natural-language specification.

Modelling conventions:
* a pandas row is a `Movie`; nullable columns are `Option`-valued and the
  pandas rule "a comparison with NaN is False" is mirrored by `Bool`-valued
  column predicates that return `false` on `none`;
* float arithmetic is modelled exactly: rational where the computation is
  rational, real (`Real.sqrt`) where the source takes a square root; NaN
  results of empty-sample statistics are modelled as `none`;
* scipy's special-function p-values (t / Levene / KS distribution tails)
  are not exactly representable; where a claim depends only on how such a
  p-value is consumed, the embedding abstracts it as an oracle argument.
-/

/-- A record of the merged master dataset (`data_loader.py`: columns
`imdb_id`, `title`, `year`, `runtime`, `genres`, `imdb_rating`,
`num_votes`; `year`, `runtime`, `imdb_rating`, `num_votes` are nullable). -/
structure Movie where
  imdb_id : Nat
  title : String
  year : Option Int
  runtime : Option Int
  genres : List String
  imdb_rating : Option Rat
  num_votes : Option Nat
deriving DecidableEq, Repr

/-- pandas `m['year'] >= c` (False on NaN). -/
def yearGE (m : Movie) (c : Int) : Bool :=
  match m.year with
  | some y => decide (c ≤ y)
  | none => false

/-- pandas `m['year'] <= c` (False on NaN). -/
def yearLE (m : Movie) (c : Int) : Bool :=
  match m.year with
  | some y => decide (y ≤ c)
  | none => false

/-- pandas `m['year'] < c` (False on NaN). -/
def yearLT (m : Movie) (c : Int) : Bool :=
  match m.year with
  | some y => decide (y < c)
  | none => false

/-- pandas `m['num_votes'] >= v` (False on NaN). -/
def votesGE (m : Movie) (v : Nat) : Bool :=
  match m.num_votes with
  | some n => decide (v ≤ n)
  | none => false

/-- pandas `m['imdb_rating'].notna()`. -/
def hasRating (m : Movie) : Bool :=
  m.imdb_rating.isSome

/-- Sample mean `l.mean()` of a list of ratings (only consulted on
nonempty samples; the NaN of an empty mean is modelled by `omean`). -/
def smean (l : List Rat) : Rat :=
  l.sum / l.length

/-- Sample variance with one delta degree of freedom, i.e. the square of
pandas `l.std()` (only consulted on samples of size ≥ 2). -/
def svar (l : List Rat) : Rat :=
  ((l.map fun x => (x - smean l) ^ 2).sum) / ((l.length : Rat) - 1)

/-- pandas `l.mean()` with the NaN of an empty sample modelled as `none`. -/
def omean (l : List Rat) : Option Rat :=
  if l.isEmpty then none else some (smean l)

/-- `rating_analysis.test_cutoff_hypothesis`, lines 154-159: restrict to
vote count ≥ `minVotes`, non-null rating, and the 1980-2024 window. -/
def cutoffFiltered (ds : List Movie) (minVotes : Nat) : List Movie :=
  ds.filter fun m => votesGE m minVotes && hasRating m && yearGE m 1980 && yearLE m 2024

/-- Line 162: the before partition `filtered[filtered['year'] < cutoff]`. -/
def beforeMovies (ds : List Movie) (cutoff : Int) (minVotes : Nat) : List Movie :=
  (cutoffFiltered ds minVotes).filter fun m => yearLT m cutoff

/-- Line 163: the after partition `filtered[filtered['year'] >= cutoff]`. -/
def afterMovies (ds : List Movie) (cutoff : Int) (minVotes : Nat) : List Movie :=
  (cutoffFiltered ds minVotes).filter fun m => yearGE m cutoff

/-- The before rating sample (`['imdb_rating']` of the before partition;
every member has a rating because of the `notna` filter). -/
def beforeRatings (ds : List Movie) (cutoff : Int) (minVotes : Nat) : List Rat :=
  (beforeMovies ds cutoff minVotes).filterMap fun m => m.imdb_rating

/-- The after rating sample. -/
def afterRatings (ds : List Movie) (cutoff : Int) (minVotes : Nat) : List Rat :=
  (afterMovies ds cutoff minVotes).filterMap fun m => m.imdb_rating

lemma mem_cutoffFiltered_yearGE {ds : List Movie} {minVotes : Nat} {m : Movie}
    (h : m ∈ cutoffFiltered ds minVotes) : yearGE m 1980 = true := by
  have h2 := (List.mem_filter.mp h).2
  simp only [Bool.and_eq_true] at h2
  exact h2.1.2

lemma mem_cutoffFiltered_year_isSome {ds : List Movie} {minVotes : Nat} {m : Movie}
    (h : m ∈ cutoffFiltered ds minVotes) : m.year.isSome = true := by
  have hge := mem_cutoffFiltered_yearGE h
  unfold yearGE at hge
  cases hy : m.year with
  | none => rw [hy] at hge; exact absurd hge (by simp)
  | some y => simp

/-- C7: the before/after split of the filtered dataset is a strict
partition: the two sides are disjoint, and their concatenation is a
permutation of the filtered input — no record is double-counted or
dropped. -/
theorem cutoff_partition_invariant (ds : List Movie) (cutoff : Int) (minVotes : Nat) :
    (∀ m ∈ beforeMovies ds cutoff minVotes, m ∉ afterMovies ds cutoff minVotes) ∧
      (beforeMovies ds cutoff minVotes ++ afterMovies ds cutoff minVotes).Perm
        (cutoffFiltered ds minVotes) := by
  constructor
  · intro m hb ha
    unfold beforeMovies at hb
    unfold afterMovies at ha
    have hlt : yearLT m cutoff = true := (List.mem_filter.mp hb).2
    have hge : yearGE m cutoff = true := (List.mem_filter.mp ha).2
    unfold yearLT at hlt
    unfold yearGE at hge
    cases hy : m.year with
    | none => rw [hy] at hlt; exact absurd hlt (by simp)
    | some y =>
      rw [hy] at hlt hge
      have h1 : y < cutoff := of_decide_eq_true hlt
      have h2 : cutoff ≤ y := of_decide_eq_true hge
      exact absurd h1 (not_lt.mpr h2)
  · unfold beforeMovies afterMovies
    have hcongr : (cutoffFiltered ds minVotes).filter (fun m => yearGE m cutoff) =
        (cutoffFiltered ds minVotes).filter (fun m => !(yearLT m cutoff)) := by
      apply List.filter_congr
      intro m hm
      have hy := mem_cutoffFiltered_year_isSome hm
      cases hyr : m.year with
      | none => rw [hyr] at hy; exact absurd hy (by simp)
      | some y =>
        unfold yearGE yearLT
        rw [hyr]
        by_cases hc : cutoff ≤ y
        · simp [hc, not_lt.mpr hc]
        · simp [hc, not_le.mp hc]
    rw [hcongr]
    exact List.filter_append_perm _ _

/-- pandas `l.std()` (ddof = 1): NaN (`none`) for samples of size ≤ 1,
otherwise the square root of the sample variance. -/
noncomputable def ostd (l : List Rat) : Option Real :=
  if l.length ≤ 1 then none else some (Real.sqrt ((svar l : Rat) : Real))

/-- Line 175: `pooled_std = sqrt((before.std()**2 + after.std()**2) / 2)`
(the same formula appears at `manipulation_detection.py` line 96). -/
noncomputable def pooledStd (x y : List Rat) : Real :=
  Real.sqrt (((svar x + svar y) / 2 : Rat) : Real)

/-- Line 176: `cohens_d = (after.mean() - before.mean()) / pooled_std`
(unguarded, unlike the detection module's variant). -/
noncomputable def cutoffCohensD (b a : List Rat) : Real :=
  ((smean a - smean b : Rat) : Real) / pooledStd b a

/-- The squared standard error used by scipy `stats.ttest_ind` under its
default `equal_var=True` (pooled / Student form):
`sp² * (1/n₁ + 1/n₂)` with `sp² = ((n₁-1)s₁² + (n₂-1)s₂²)/(n₁+n₂-2)`. -/
def studentSE2 (x y : List Rat) : Rat :=
  ((((x.length : Rat) - 1) * svar x + ((y.length : Rat) - 1) * svar y)
      / ((x.length : Rat) + (y.length : Rat) - 2))
    * (1 / (x.length : Rat) + 1 / (y.length : Rat))

/-- The t statistic of `stats.ttest_ind(x, y)` as called on line 166 — no
`equal_var` argument, so scipy's default pooled-variance Student form. -/
noncomputable def ttest_ind (x y : List Rat) : Real :=
  ((smean x - smean y : Rat) : Real) / Real.sqrt ((studentSE2 x y : Rat) : Real)

/-- Modelled from the spec: the squared standard error of the Welch
(unequal-variance) two-sample t-test, `s₁²/n₁ + s₂²/n₂`. -/
def welchSE2 (x y : List Rat) : Rat :=
  svar x / (x.length : Rat) + svar y / (y.length : Rat)

/-- Modelled from the spec: the Welch two-sample t statistic
`(mean₁ - mean₂) / sqrt(s₁²/n₁ + s₂²/n₂)` (scipy's
`ttest_ind(..., equal_var=False)`), which the spec asserts the cutoff
tester uses. -/
noncomputable def welch_t (x y : List Rat) : Real :=
  ((smean x - smean y : Rat) : Real) / Real.sqrt ((welchSE2 x y : Rat) : Real)

/-- The result dictionary of `test_cutoff_hypothesis` (lines 178-194),
restricted to the entries with exact closed forms.  The Levene and KS
statistics and the three distribution-tail p-values are scipy
special-function outputs with no exact closed form and no claim consults
their numeric values here; `compare_all_cutoffs`' consumption of the
p-values is modelled abstractly below. -/
structure CutoffResult where
  cutoff_year : Int
  n_before : Nat
  n_after : Nat
  mean_before : Option Rat
  mean_after : Option Rat
  mean_diff : Option Rat
  std_before : Option Real
  std_after : Option Real
  t_statistic : Real
  cohens_d : Real

/-- `rating_analysis.test_cutoff_hypothesis(master, cutoff_year, min_votes)`:
filter, split at the cutoff year, and compute the two-sample statistics.
The function is total — the source performs no size validation and raises
nothing; empty-sample statistics come out as NaN (`none`). -/
noncomputable def test_cutoff_hypothesis (ds : List Movie) (cutoff : Int)
    (minVotes : Nat) : CutoffResult :=
  let before := beforeRatings ds cutoff minVotes
  let after := afterRatings ds cutoff minVotes
  { cutoff_year := cutoff
    n_before := before.length
    n_after := after.length
    mean_before := omean before
    mean_after := omean after
    mean_diff :=
      match omean after, omean before with
      | some a, some b => some (a - b)
      | _, _ => none
    std_before := ostd before
    std_after := ostd after
    t_statistic := ttest_ind before after
    cohens_d := cutoffCohensD before after }

/-- A concrete dataset whose before-2012 rating sample is `[0, 2]` and
whose after-2012 sample is `[4, 4, 10]`; on it the pooled and the Welch
standard errors differ (65/9 versus 5). -/
def dsWelch : List Movie :=
  [ ⟨1, "b1", some 2000, none, [], some 0, some 2000⟩
  , ⟨2, "b2", some 2001, none, [], some 2, some 2000⟩
  , ⟨3, "a1", some 2015, none, [], some 4, some 2000⟩
  , ⟨4, "a2", some 2016, none, [], some 4, some 2000⟩
  , ⟨5, "a3", some 2017, none, [], some 10, some 2000⟩ ]

/-- C1 counterexample: the claim says the cutoff tester computes the
mean-difference significance with a Welch (unequal-variance) t-test; on
`dsWelch` the statistic the tester computes (scipy `ttest_ind` with its
default `equal_var=True`) differs from the Welch statistic of the same
before/after samples. -/
theorem cutoff_ttest_not_welch :
    (test_cutoff_hypothesis dsWelch 2012 1000).t_statistic ≠
      welch_t (beforeRatings dsWelch 2012 1000) (afterRatings dsWelch 2012 1000) := by
  have hb : beforeRatings dsWelch 2012 1000 = [0, 2] := by decide
  have ha : afterRatings dsWelch 2012 1000 = [4, 4, 10] := by decide
  have ht : (test_cutoff_hypothesis dsWelch 2012 1000).t_statistic
      = ttest_ind [0, 2] [4, 4, 10] := by
    show ttest_ind (beforeRatings dsWelch 2012 1000) (afterRatings dsWelch 2012 1000)
        = ttest_ind [0, 2] [4, 4, 10]
    rw [hb, ha]
  rw [ht, hb, ha]
  unfold ttest_ind welch_t
  have h1 : studentSE2 [0, 2] [4, 4, 10] = 65 / 9 := by
    norm_num [studentSE2, svar, smean]
  have h2 : welchSE2 [0, 2] [4, 4, 10] = 5 := by
    norm_num [welchSE2, svar, smean]
  have h3 : (smean [0, 2] - smean [4, 4, 10] : Rat) = -5 := by
    norm_num [smean]
  rw [h1, h2, h3]
  intro heq
  have hs1 : (0 : Real) < Real.sqrt ((65 / 9 : Rat) : Real) := by
    apply Real.sqrt_pos.mpr
    norm_num
  have hs2 : (0 : Real) < Real.sqrt ((5 : Rat) : Real) := by
    apply Real.sqrt_pos.mpr
    norm_num
  have hne : Real.sqrt ((65 / 9 : Rat) : Real) ≠ Real.sqrt ((5 : Rat) : Real) := by
    intro h
    have h' := (Real.sqrt_inj (by norm_num) (by norm_num)).mp h
    norm_num at h'
  have hmul := (div_eq_div_iff hs1.ne' hs2.ne').mp heq
  have h5 : ((-5 : Rat) : Real) ≠ 0 := by norm_num
  exact hne (mul_left_cancel₀ h5 (by linarith)).symm

/-- C1 amended: for every dataset, candidate cutoff year and vote floor,
the statistic the cutoff tester computes for mean-difference significance
is the pooled-variance (equal-variance Student) two-sample t statistic of
the before/after rating samples — scipy `ttest_ind`'s default — not the
Welch statistic. -/
theorem cutoff_ttest_is_student (ds : List Movie) (cutoff : Int) (minVotes : Nat) :
    (test_cutoff_hypothesis ds cutoff minVotes).t_statistic =
      ((smean (beforeRatings ds cutoff minVotes)
          - smean (afterRatings ds cutoff minVotes) : Rat) : Real) /
        Real.sqrt
          (((((((beforeRatings ds cutoff minVotes).length : Rat) - 1)
                  * svar (beforeRatings ds cutoff minVotes)
                + (((afterRatings ds cutoff minVotes).length : Rat) - 1)
                  * svar (afterRatings ds cutoff minVotes))
              / (((beforeRatings ds cutoff minVotes).length : Rat)
                + ((afterRatings ds cutoff minVotes).length : Rat) - 2))
            * (1 / ((beforeRatings ds cutoff minVotes).length : Rat)
              + 1 / ((afterRatings ds cutoff minVotes).length : Rat)) : Rat) : Real) :=
  rfl

/-- A one-movie dataset (year 2000, rating 7, 2000 votes): with cutoff
2025 its after partition is empty after filtering. -/
def dsOneMovie : List Movie :=
  [ ⟨1, "m1", some 2000, none, [], some 7, some 2000⟩ ]

/-- C2 counterexample: with candidate cutoff 2025 the after partition is
empty, yet the cutoff tester raises nothing — no `InsufficientDataError`
is defined anywhere in the code — and returns a result whose after-side
statistics are NaN (`none`). -/
theorem cutoff_empty_partition_returns_nan :
    (test_cutoff_hypothesis dsOneMovie 2025 1000).n_after = 0 ∧
      (test_cutoff_hypothesis dsOneMovie 2025 1000).mean_after = none ∧
      (test_cutoff_hypothesis dsOneMovie 2025 1000).std_after = none ∧
      (test_cutoff_hypothesis dsOneMovie 2025 1000).mean_diff = none := by
  have ha : afterRatings dsOneMovie 2025 1000 = [] := by decide
  refine ⟨?_, ?_, ?_, ?_⟩ <;>
    simp [test_cutoff_hypothesis, ha, omean, ostd]

/-- C2 amended: a candidate year whose before or after partition is empty
after filtering is not reported as an error (the code defines no
`InsufficientDataError` and performs no size validation); the tester
instead returns a result in which the empty side's sample size is 0 and
its mean, its standard deviation and the mean difference are NaN. -/
theorem cutoff_empty_partition_nan (ds : List Movie) (cutoff : Int) (minVotes : Nat) :
    (afterRatings ds cutoff minVotes = [] →
        (test_cutoff_hypothesis ds cutoff minVotes).n_after = 0 ∧
          (test_cutoff_hypothesis ds cutoff minVotes).mean_after = none ∧
          (test_cutoff_hypothesis ds cutoff minVotes).std_after = none ∧
          (test_cutoff_hypothesis ds cutoff minVotes).mean_diff = none) ∧
      (beforeRatings ds cutoff minVotes = [] →
        (test_cutoff_hypothesis ds cutoff minVotes).n_before = 0 ∧
          (test_cutoff_hypothesis ds cutoff minVotes).mean_before = none ∧
          (test_cutoff_hypothesis ds cutoff minVotes).std_before = none ∧
          (test_cutoff_hypothesis ds cutoff minVotes).mean_diff = none) := by
  constructor
  · intro ha
    refine ⟨?_, ?_, ?_, ?_⟩ <;> simp [test_cutoff_hypothesis, ha, omean, ostd]
  · intro hb
    refine ⟨?_, ?_, ?_, ?_⟩ <;>
      simp [test_cutoff_hypothesis, hb, omean, ostd]

/-- Witness for the amended C2 at concrete inputs: `dsOneMovie` (one movie
of year 2000) has an empty after partition at cutoff 2025 and an empty
before partition at cutoff 1980, and the tester returns the
NaN-statistics result in both cases. -/
theorem cutoff_empty_partition_nan_witness :
    (afterRatings dsOneMovie 2025 1000 = [] ∧
      ((test_cutoff_hypothesis dsOneMovie 2025 1000).n_after = 0 ∧
        (test_cutoff_hypothesis dsOneMovie 2025 1000).mean_after = none ∧
        (test_cutoff_hypothesis dsOneMovie 2025 1000).std_after = none ∧
        (test_cutoff_hypothesis dsOneMovie 2025 1000).mean_diff = none)) ∧
      (beforeRatings dsOneMovie 1980 1000 = [] ∧
        ((test_cutoff_hypothesis dsOneMovie 1980 1000).n_before = 0 ∧
          (test_cutoff_hypothesis dsOneMovie 1980 1000).mean_before = none ∧
          (test_cutoff_hypothesis dsOneMovie 1980 1000).std_before = none ∧
          (test_cutoff_hypothesis dsOneMovie 1980 1000).mean_diff = none)) :=
  ⟨⟨by decide, (cutoff_empty_partition_nan dsOneMovie 2025 1000).1 (by decide)⟩,
    ⟨by decide, (cutoff_empty_partition_nan dsOneMovie 1980 1000).2 (by decide)⟩⟩

/-- A concrete dataset whose before-2012 rating sample is `[1, 2]` and
whose after-2012 sample is `[3, 5]`. -/
def dsCohen : List Movie :=
  [ ⟨1, "b1", some 2000, none, [], some 1, some 2000⟩
  , ⟨2, "b2", some 2001, none, [], some 2, some 2000⟩
  , ⟨3, "a1", some 2015, none, [], some 3, some 2000⟩
  , ⟨4, "a2", some 2016, none, [], some 5, some 2000⟩ ]

/-- C8: whenever both rating samples have at least two elements (so both
sample standard deviations are defined) and the pooled standard deviation
`sqrt((sd_before² + sd_after²)/2)` is positive, the cutoff tester's
Cohen's d equals the after-minus-before mean difference divided by that
pooled standard deviation; in particular an after mean exceeding the
before mean forces a strictly positive d. -/
theorem cutoff_cohens_d_spec (ds : List Movie) (cutoff : Int) (minVotes : Nat)
    (_h2b : 2 ≤ (beforeRatings ds cutoff minVotes).length)
    (_h2a : 2 ≤ (afterRatings ds cutoff minVotes).length)
    (hpos : 0 < pooledStd (beforeRatings ds cutoff minVotes)
      (afterRatings ds cutoff minVotes)) :
    (test_cutoff_hypothesis ds cutoff minVotes).cohens_d =
        ((smean (afterRatings ds cutoff minVotes)
            - smean (beforeRatings ds cutoff minVotes) : Rat) : Real) /
          pooledStd (beforeRatings ds cutoff minVotes) (afterRatings ds cutoff minVotes) ∧
      (smean (beforeRatings ds cutoff minVotes)
          < smean (afterRatings ds cutoff minVotes) →
        0 < (test_cutoff_hypothesis ds cutoff minVotes).cohens_d) := by
  refine ⟨rfl, fun hlt => ?_⟩
  have hnum : (0 : Real) < ((smean (afterRatings ds cutoff minVotes)
      - smean (beforeRatings ds cutoff minVotes) : Rat) : Real) := by
    exact_mod_cast sub_pos.mpr hlt
  exact div_pos hnum hpos

/-- Witness for C8 at a concrete input: on `dsCohen` both samples have two
elements, the pooled standard deviation `sqrt(5/4)` is positive, and the
theorem yields the quotient form and the positive sign of Cohen's d. -/
theorem cutoff_cohens_d_spec_witness :
    2 ≤ (beforeRatings dsCohen 2012 1000).length ∧
      2 ≤ (afterRatings dsCohen 2012 1000).length ∧
      0 < pooledStd (beforeRatings dsCohen 2012 1000) (afterRatings dsCohen 2012 1000) ∧
      ((test_cutoff_hypothesis dsCohen 2012 1000).cohens_d =
          ((smean (afterRatings dsCohen 2012 1000)
              - smean (beforeRatings dsCohen 2012 1000) : Rat) : Real) /
            pooledStd (beforeRatings dsCohen 2012 1000) (afterRatings dsCohen 2012 1000) ∧
        (smean (beforeRatings dsCohen 2012 1000) < smean (afterRatings dsCohen 2012 1000) →
          0 < (test_cutoff_hypothesis dsCohen 2012 1000).cohens_d)) := by
  have hb : beforeRatings dsCohen 2012 1000 = [1, 2] := by decide
  have ha : afterRatings dsCohen 2012 1000 = [3, 5] := by decide
  have hpos : 0 < pooledStd (beforeRatings dsCohen 2012 1000)
      (afterRatings dsCohen 2012 1000) := by
    rw [hb, ha]
    unfold pooledStd
    apply Real.sqrt_pos.mpr
    have hq : ((svar [1, 2] + svar [3, 5]) / 2 : Rat) = 5 / 4 := by
      norm_num [svar, smean]
    rw [hq]
    norm_num
  exact ⟨by decide, by decide, hpos,
    cutoff_cohens_d_spec dsCohen 2012 1000 (by decide) (by decide) hpos⟩

/-- One entry of the `results` list that `compare_all_cutoffs` builds
(lines 216-223): of each per-year result dictionary the ranking consults
only the three p-value columns, so the row abstracts the dictionary to
the candidate year and those p-values (scipy special-function outputs,
carried abstractly as rationals). -/
structure CutoffRow where
  cutoff_year : Int
  t_pvalue : Rat
  levene_pvalue : Rat
  ks_pvalue : Rat
deriving DecidableEq, Repr

/-- pandas `Series.rank()` with its defaults (`method='average'`,
`ascending=True`): the rank of `x` in column `col` is the count of
strictly smaller entries plus the average of the positions occupied by
the entries tied with `x`. -/
def rankAvg (col : List Rat) (x : Rat) : Rat :=
  (col.countP (fun y => decide (y < x)) : Rat)
    + ((col.countP (fun y => decide (y = x)) : Rat) + 1) / 2

/-- A row of `compare_all_cutoffs`' result frame after lines 226-229: the
input row with its three ranks and their average. -/
structure RankedRow where
  row : CutoffRow
  t_rank : Rat
  levene_rank : Rat
  ks_rank : Rat
  combined_rank : Rat
deriving DecidableEq, Repr

/-- Lines 226-229: `df['t_rank'] = df['t_pvalue'].rank()` (same for the
Levene and KS columns) and `df['combined_rank']` their average. -/
def addRanks (rows : List CutoffRow) : List RankedRow :=
  rows.map fun r =>
    { row := r
      t_rank := rankAvg (rows.map fun s => s.t_pvalue) r.t_pvalue
      levene_rank := rankAvg (rows.map fun s => s.levene_pvalue) r.levene_pvalue
      ks_rank := rankAvg (rows.map fun s => s.ks_pvalue) r.ks_pvalue
      combined_rank :=
        (rankAvg (rows.map fun s => s.t_pvalue) r.t_pvalue
          + rankAvg (rows.map fun s => s.levene_pvalue) r.levene_pvalue
          + rankAvg (rows.map fun s => s.ks_pvalue) r.ks_pvalue) / 3 }

/-- Comparison of two records by a rational key. -/
def keyLe {α : Type} (k : α → Rat) (x y : α) : Prop :=
  k x ≤ k y

instance {α : Type} (k : α → Rat) : DecidableRel (keyLe k) :=
  fun x y => inferInstanceAs (Decidable (k x ≤ k y))

instance {α : Type} (k : α → Rat) : IsTotal α (keyLe k) :=
  ⟨fun x y => le_total (k x) (k y)⟩

instance {α : Type} (k : α → Rat) : IsTrans α (keyLe k) :=
  ⟨fun _ _ _ h1 h2 => le_trans h1 h2⟩

/-- Line 231: `df.sort_values('combined_rank')`.  pandas delegates to
numpy's quicksort, which sorts any array of fewer than 16 elements by a
single — stable — insertion-sort pass, and this sort always receives the
five hard-coded candidate rows of line 215; it is therefore modelled as
insertion sort by the combined rank. -/
def compare_all_cutoffs (rows : List CutoffRow) : List RankedRow :=
  List.insertionSort (keyLe fun r : RankedRow => r.combined_rank) (addRanks rows)

lemma filter_key_orderedInsert {α : Type} (k : α → Rat) (c : Rat) (a : α)
    (l : List α) :
    (List.orderedInsert (keyLe k) a l).filter (fun x => decide (k x = c)) =
      if k a = c then a :: l.filter (fun x => decide (k x = c))
      else l.filter (fun x => decide (k x = c)) := by
  induction l with
  | nil => by_cases h : k a = c <;> simp [List.orderedInsert, h]
  | cons b t ih =>
    by_cases hab : keyLe k a b
    · rw [List.orderedInsert_of_le _ _ hab]
      by_cases h : k a = c <;> simp [h, List.filter_cons]
    · have hoi : List.orderedInsert (keyLe k) a (b :: t) =
          b :: List.orderedInsert (keyLe k) a t := by
        simp [List.orderedInsert, hab]
      rw [hoi]
      have hba : k b < k a := not_le.mp hab
      by_cases h : k a = c
      · have hbc : ¬(k b = c) := by rw [← h]; exact ne_of_lt hba
        simp [List.filter_cons, h, hbc, ih]
      · by_cases hb : k b = c <;> simp [List.filter_cons, h, hb, ih]

lemma filter_key_insertionSort {α : Type} (k : α → Rat) (c : Rat) (l : List α) :
    (List.insertionSort (keyLe k) l).filter (fun x => decide (k x = c)) =
      l.filter (fun x => decide (k x = c)) := by
  induction l with
  | nil => rfl
  | cons a t ih =>
    have hstep : List.insertionSort (keyLe k) (a :: t) =
        List.orderedInsert (keyLe k) a (List.insertionSort (keyLe k) t) := rfl
    rw [hstep, filter_key_orderedInsert]
    by_cases h : k a = c <;> simp [h, ih, List.filter_cons]

/-- C3: for every list of candidate rows, the cutoff comparison (i)
returns a permutation of the input rows annotated, for each row, with the
three pandas average ranks of its t / Levene / KS p-values (each
ascending) and a combined rank equal to their average; (ii) the output is
sorted ascending by combined rank; and (iii) the sort is stable: for every
combined-rank value, the output lists the rows carrying that value in
exactly their input order. -/
theorem compare_all_cutoffs_spec (rows : List CutoffRow) :
    (compare_all_cutoffs rows).Perm
        (rows.map fun r =>
          { row := r
            t_rank := rankAvg (rows.map fun s => s.t_pvalue) r.t_pvalue
            levene_rank := rankAvg (rows.map fun s => s.levene_pvalue) r.levene_pvalue
            ks_rank := rankAvg (rows.map fun s => s.ks_pvalue) r.ks_pvalue
            combined_rank :=
              (rankAvg (rows.map fun s => s.t_pvalue) r.t_pvalue
                + rankAvg (rows.map fun s => s.levene_pvalue) r.levene_pvalue
                + rankAvg (rows.map fun s => s.ks_pvalue) r.ks_pvalue) / 3 }) ∧
      (compare_all_cutoffs rows).Sorted
        (fun x y : RankedRow => x.combined_rank ≤ y.combined_rank) ∧
      ∀ c : Rat,
        (compare_all_cutoffs rows).filter (fun x => decide (x.combined_rank = c)) =
          (addRanks rows).filter (fun x => decide (x.combined_rank = c)) := by
  refine ⟨List.perm_insertionSort _ _, ?_, fun c => filter_key_insertionSort _ c _⟩
  exact List.sorted_insertionSort (keyLe fun r : RankedRow => r.combined_rank) _

/-- `manipulation_detection.py` line 24: the default recent window. -/
def RECENT_YEARS : Int × Int := (2019, 2024)

/-- `manipulation_detection.py` line 26. -/
def MIN_MOVIES_PER_GENRE : Nat := 10

/-- Lines 71 / 141 / 212: `master_df[master_df['year'].between(*years_range)]`
(pandas `between` is inclusive on both ends). -/
def recentMovies (ds : List Movie) (range : Int × Int) : List Movie :=
  ds.filter fun m => yearGE m range.1 && yearLE m range.2

/-- Line 72: `master_df[master_df['year'] < years_range[0]]`. -/
def historicalMovies (ds : List Movie) (range : Int × Int) : List Movie :=
  ds.filter fun m => yearLT m range.1

/-- Lines 75-76 / 224: `df.explode('genres')` — one `(genre, movie)` entry
per genre tag of each movie.  (pandas gives a movie with an empty tag list
one NaN-genre row; every later genre equality test and the `dropna` of
line 80 discard it, so it is dropped here.) -/
def explodeGenres (ms : List Movie) : List (String × Movie) :=
  ms.flatMap fun m => m.genres.map fun g => (g, m)

/-- pandas `Series.unique()`: the distinct values in order of first
appearance. -/
def uniqueFirst (l : List String) : List String :=
  l.foldl (fun acc g => if g ∈ acc then acc else acc ++ [g]) []

/-- Line 80: the genres observed in the recent period
(`recent_exploded['genres'].dropna().unique()`). -/
def recentGenreList (ds : List Movie) (range : Int × Int) : List String :=
  uniqueFirst ((explodeGenres (recentMovies ds range)).map fun p => p.1)

/-- Line 81: the non-null recent ratings of one genre. -/
def recentGenreRatings (ds : List Movie) (range : Int × Int) (g : String) : List Rat :=
  ((explodeGenres (recentMovies ds range)).filter fun p => decide (p.1 = g)).filterMap
    fun p => p.2.imdb_rating

/-- Line 82: the non-null historical ratings of one genre. -/
def histGenreRatings (ds : List Movie) (range : Int × Int) (g : String) : List Rat :=
  ((explodeGenres (historicalMovies ds range)).filter fun p => decide (p.1 = g)).filterMap
    fun p => p.2.imdb_rating

open Classical in
/-- Lines 96-97 (and identically lines 245-246): Cohen's d with the pooled
standard deviation, guarded — `diff / pooled_std if pooled_std > 0 else 0`. -/
noncomputable def cohensD (x y : List Rat) : Real :=
  if 0 < pooledStd x y then ((smean x - smean y : Rat) : Real) / pooledStd x y else 0

open Classical in
/-- `_effect_size_label` (lines 425-435). -/
noncomputable def effectSizeLabel (d : Real) : String :=
  if |d| < 0.2 then "negligible"
  else if |d| < 0.5 then "small"
  else if |d| < 0.8 then "medium"
  else "large"

/-- A row of `analyze_genre_anomalies`' result (lines 99-111).  The Welch
t statistic and p-value of line 93 (`ttest_ind(..., equal_var=False)`) are
scipy special-function outputs carried abstractly; `suspicious` is the
decision of line 110. -/
structure GenreRow where
  genre : String
  recent_mean : Rat
  historical_mean : Rat
  difference : Rat
  recent_count : Nat
  historical_count : Nat
  t_statistic : Rat
  p_value : Rat
  cohens_d : Real
  effect_size_label : String
  suspicious : Prop

/-- Lines 79-111: the `results` list of `analyze_genre_anomalies` — one
row per recent genre whose rated membership passes the
`MIN_MOVIES_PER_GENRE` gate on both sides (line 84 `continue`s
otherwise).  `welchTP x y` stands for the `(statistic, p-value)` pair of
scipy's `ttest_ind(x, y, equal_var=False)`. -/
noncomputable def genreRows (welchTP : List Rat → List Rat → Rat × Rat)
    (ds : List Movie) (range : Int × Int) : List GenreRow :=
  (recentGenreList ds range).filterMap fun g =>
    let rg := recentGenreRatings ds range g
    let hg := histGenreRatings ds range g
    if rg.length < MIN_MOVIES_PER_GENRE ∨ hg.length < MIN_MOVIES_PER_GENRE then none
    else some
      { genre := g
        recent_mean := smean rg
        historical_mean := smean hg
        difference := smean rg - smean hg
        recent_count := rg.length
        historical_count := hg.length
        t_statistic := (welchTP rg hg).1
        p_value := (welchTP rg hg).2
        cohens_d := cohensD rg hg
        effect_size_label := effectSizeLabel (cohensD rg hg)
        suspicious := 1 / 2 < |cohensD rg hg| ∧ (welchTP rg hg).2 < 1 / 100 }

/-- Descending comparison of two records by a real-valued key. -/
def keyGeReal {α : Type} (k : α → Real) (x y : α) : Prop :=
  k y ≤ k x

noncomputable instance {α : Type} (k : α → Real) : DecidableRel (keyGeReal k) :=
  fun _ _ => Classical.dec _

instance {α : Type} (k : α → Real) : IsTotal α (keyGeReal k) :=
  ⟨fun x y => le_total (k y) (k x)⟩

instance {α : Type} (k : α → Real) : IsTrans α (keyGeReal k) :=
  ⟨fun _ _ _ h1 h2 => le_trans h2 h1⟩

/-- Line 113: `pd.DataFrame(results).sort_values('cohens_d', ascending=False)`. -/
noncomputable def analyze_genre_anomalies (welchTP : List Rat → List Rat → Rat × Rat)
    (ds : List Movie) (range : Int × Int) : List GenreRow :=
  List.insertionSort (keyGeReal fun r : GenreRow => r.cohens_d) (genreRows welchTP ds range)

lemma mem_uniqueFirst_aux (l acc : List String) (a : String) :
    a ∈ l.foldl (fun acc g => if g ∈ acc then acc else acc ++ [g]) acc ↔
      a ∈ acc ∨ a ∈ l := by
  induction l generalizing acc with
  | nil => simp
  | cons b t ih =>
    simp only [List.foldl_cons]
    by_cases hb : b ∈ acc
    · rw [if_pos hb, ih]
      constructor
      · rintro (h | h)
        · exact Or.inl h
        · exact Or.inr (List.mem_cons_of_mem _ h)
      · rintro (h | h)
        · exact Or.inl h
        · rcases List.mem_cons.mp h with h' | h'
          · exact Or.inl (h' ▸ hb)
          · exact Or.inr h'
    · rw [if_neg hb, ih]
      simp only [List.mem_append, List.mem_singleton, List.mem_cons]
      tauto

lemma mem_uniqueFirst {l : List String} {a : String} :
    a ∈ uniqueFirst l ↔ a ∈ l := by
  unfold uniqueFirst
  rw [mem_uniqueFirst_aux]
  simp

lemma genre_mem_of_ratings {ds : List Movie} {range : Int × Int} {g : String}
    (h : 0 < (recentGenreRatings ds range g).length) :
    g ∈ recentGenreList ds range := by
  obtain ⟨r, hr⟩ := List.exists_mem_of_ne_nil _ (List.length_pos.mp h)
  unfold recentGenreRatings at hr
  rcases List.mem_filterMap.mp hr with ⟨p, hp, _⟩
  have hpf := List.mem_filter.mp hp
  have hpg : p.1 = g := of_decide_eq_true hpf.2
  unfold recentGenreList
  rw [mem_uniqueFirst]
  exact List.mem_map.mpr ⟨p, hpf.1, hpg⟩

/-- C4: a genre with at least 10 rated members in both the recent and the
historical subset is reported, with its rated counts, and is marked
`suspicious` exactly when |Cohen's d| > 0.5 and the Welch t-test p-value
is < 0.01; a genre whose rated membership is below 10 on either side is
excluded from the result table entirely. -/
theorem analyze_genre_anomalies_spec (welchTP : List Rat → List Rat → Rat × Rat)
    (ds : List Movie) (range : Int × Int) (g : String) :
    (10 ≤ (recentGenreRatings ds range g).length →
      10 ≤ (histGenreRatings ds range g).length →
      ∃ row ∈ analyze_genre_anomalies welchTP ds range,
        row.genre = g ∧
          row.recent_count = (recentGenreRatings ds range g).length ∧
          row.historical_count = (histGenreRatings ds range g).length ∧
          (row.suspicious ↔
            (1 / 2 <
                |cohensD (recentGenreRatings ds range g) (histGenreRatings ds range g)| ∧
              (welchTP (recentGenreRatings ds range g)
                  (histGenreRatings ds range g)).2 < 1 / 100))) ∧
      ((recentGenreRatings ds range g).length < 10 ∨
          (histGenreRatings ds range g).length < 10 →
        ∀ row ∈ analyze_genre_anomalies welchTP ds range, row.genre ≠ g) := by
  constructor
  · intro hr hh
    have hg : g ∈ recentGenreList ds range :=
      genre_mem_of_ratings (lt_of_lt_of_le (by norm_num) hr)
    have hcond : ¬((recentGenreRatings ds range g).length < MIN_MOVIES_PER_GENRE ∨
        (histGenreRatings ds range g).length < MIN_MOVIES_PER_GENRE) := by
      unfold MIN_MOVIES_PER_GENRE
      push_neg
      exact ⟨hr, hh⟩
    refine ⟨{ genre := g
              recent_mean := smean (recentGenreRatings ds range g)
              historical_mean := smean (histGenreRatings ds range g)
              difference := smean (recentGenreRatings ds range g)
                - smean (histGenreRatings ds range g)
              recent_count := (recentGenreRatings ds range g).length
              historical_count := (histGenreRatings ds range g).length
              t_statistic := (welchTP (recentGenreRatings ds range g)
                (histGenreRatings ds range g)).1
              p_value := (welchTP (recentGenreRatings ds range g)
                (histGenreRatings ds range g)).2
              cohens_d := cohensD (recentGenreRatings ds range g)
                (histGenreRatings ds range g)
              effect_size_label := effectSizeLabel (cohensD (recentGenreRatings ds range g)
                (histGenreRatings ds range g))
              suspicious := 1 / 2 <
                  |cohensD (recentGenreRatings ds range g) (histGenreRatings ds range g)| ∧
                (welchTP (recentGenreRatings ds range g)
                  (histGenreRatings ds range g)).2 < 1 / 100 },
          ?_, rfl, rfl, rfl, Iff.rfl⟩
    rw [analyze_genre_anomalies, List.mem_insertionSort]
    unfold genreRows
    apply List.mem_filterMap.mpr
    refine ⟨g, hg, ?_⟩
    simp only []
    rw [if_neg hcond]
  · intro hlow row hrow hgen
    rw [analyze_genre_anomalies, List.mem_insertionSort] at hrow
    unfold genreRows at hrow
    rcases List.mem_filterMap.mp hrow with ⟨g', hg', hfg⟩
    simp only [] at hfg
    by_cases hc : (recentGenreRatings ds range g').length < MIN_MOVIES_PER_GENRE ∨
        (histGenreRatings ds range g').length < MIN_MOVIES_PER_GENRE
    · rw [if_pos hc] at hfg
      exact Option.noConfusion hfg
    · rw [if_neg hc] at hfg
      have hrowg : row.genre = g' := by
        have h' := Option.some.inj hfg
        rw [← h']
    -- h' : {genre := g', ...} = row
      rw [hgen] at hrowg
      rw [← hrowg] at hc
      unfold MIN_MOVIES_PER_GENRE at hc
      exact hc hlow

/-- A concrete dataset for the genre detector: ten rated recent and ten
rated historical movies of genre "D", and a single recent movie of genre
"W" (below the 10-member floor). -/
def dsGenre : List Movie :=
  [ ⟨1, "r", some 2020, none, ["D"], some 7, some 2000⟩
  , ⟨2, "r", some 2020, none, ["D"], some 7, some 2000⟩
  , ⟨3, "r", some 2020, none, ["D"], some 7, some 2000⟩
  , ⟨4, "r", some 2020, none, ["D"], some 7, some 2000⟩
  , ⟨5, "r", some 2020, none, ["D"], some 7, some 2000⟩
  , ⟨6, "r", some 2020, none, ["D"], some 7, some 2000⟩
  , ⟨7, "r", some 2020, none, ["D"], some 7, some 2000⟩
  , ⟨8, "r", some 2020, none, ["D"], some 7, some 2000⟩
  , ⟨9, "r", some 2020, none, ["D"], some 7, some 2000⟩
  , ⟨10, "r", some 2020, none, ["D"], some 7, some 2000⟩
  , ⟨11, "w", some 2020, none, ["W"], some 7, some 2000⟩
  , ⟨12, "h", some 2000, none, ["D"], some 7, some 2000⟩
  , ⟨13, "h", some 2000, none, ["D"], some 7, some 2000⟩
  , ⟨14, "h", some 2000, none, ["D"], some 7, some 2000⟩
  , ⟨15, "h", some 2000, none, ["D"], some 7, some 2000⟩
  , ⟨16, "h", some 2000, none, ["D"], some 7, some 2000⟩
  , ⟨17, "h", some 2000, none, ["D"], some 7, some 2000⟩
  , ⟨18, "h", some 2000, none, ["D"], some 7, some 2000⟩
  , ⟨19, "h", some 2000, none, ["D"], some 7, some 2000⟩
  , ⟨20, "h", some 2000, none, ["D"], some 7, some 2000⟩
  , ⟨21, "h", some 2000, none, ["D"], some 7, some 2000⟩ ]

/-- Witness for C4 at a concrete input: on `dsGenre` (with a constant
p-value oracle) genre "D" passes both floors and is reported with the
conjunction decision, while genre "W" falls below the recent floor and is
excluded. -/
theorem analyze_genre_anomalies_spec_witness :
    (10 ≤ (recentGenreRatings dsGenre (2019, 2024) "D").length ∧
      10 ≤ (histGenreRatings dsGenre (2019, 2024) "D").length ∧
      ∃ row ∈ analyze_genre_anomalies (fun _ _ => (0, 1)) dsGenre (2019, 2024),
        row.genre = "D" ∧
          row.recent_count = (recentGenreRatings dsGenre (2019, 2024) "D").length ∧
          row.historical_count = (histGenreRatings dsGenre (2019, 2024) "D").length ∧
          (row.suspicious ↔
            (1 / 2 <
                |cohensD (recentGenreRatings dsGenre (2019, 2024) "D")
                  (histGenreRatings dsGenre (2019, 2024) "D")| ∧
              ((fun (_ _ : List Rat) => ((0 : Rat), (1 : Rat)))
                  (recentGenreRatings dsGenre (2019, 2024) "D")
                  (histGenreRatings dsGenre (2019, 2024) "D")).2 < 1 / 100))) ∧
      ((recentGenreRatings dsGenre (2019, 2024) "W").length < 10 ∧
        ∀ row ∈ analyze_genre_anomalies (fun _ _ => (0, 1)) dsGenre (2019, 2024),
          row.genre ≠ "W") :=
  ⟨⟨by decide, by decide,
      (analyze_genre_anomalies_spec (fun _ _ => (0, 1)) dsGenre (2019, 2024) "D").1
        (by decide) (by decide)⟩,
    ⟨by decide,
      (analyze_genre_anomalies_spec (fun _ _ => (0, 1)) dsGenre (2019, 2024) "W").2
        (Or.inl (by decide))⟩⟩

/-- Line 228: the fixed genre allowlist of the franchise comparison. -/
def franchiseGenreList : List String :=
  ["Action", "Sci-Fi", "Adventure", "Thriller", "Drama"]

/-- Lines 229-231 of `detect_franchise_coordination`: the non-null recent
ratings of the franchise-tagged records of one genre.  The tagging of
lines 215-221 (case-insensitive keyword match of the configured
`franchise_map` against titles) enters the compared quantities only
through the tagged/untagged split, so it is abstracted as `isFr`. -/
def franchiseRatings (isFr : Movie → Bool) (ds : List Movie) (range : Int × Int)
    (g : String) : List Rat :=
  (((explodeGenres (recentMovies ds range)).filter fun p => decide (p.1 = g)).filter
      fun p => isFr p.2).filterMap fun p => p.2.imdb_rating

/-- Line 232: the non-null recent ratings of the non-tagged (standalone)
records of one genre. -/
def standaloneRatings (isFr : Movie → Bool) (ds : List Movie) (range : Int × Int)
    (g : String) : List Rat :=
  (((explodeGenres (recentMovies ds range)).filter fun p => decide (p.1 = g)).filter
      fun p => !isFr p.2).filterMap fun p => p.2.imdb_rating

/-- A row of `detect_franchise_coordination`' result (lines 248-259); the
Welch statistic/p-value of line 242 is carried abstractly and
`suspicious` is the decision of line 258. -/
structure FranchiseRow where
  genre : String
  franchise_mean : Rat
  standalone_mean : Rat
  difference : Rat
  franchise_count : Nat
  standalone_count : Nat
  t_statistic : Rat
  p_value : Rat
  cohens_d : Real
  suspicious : Prop

/-- Lines 227-259: the `results` list — one row per allowlisted genre with
at least 5 franchise and at least 10 standalone rated records (line 234
`continue`s otherwise). -/
noncomputable def franchiseRows (isFr : Movie → Bool)
    (welchTP : List Rat → List Rat → Rat × Rat) (ds : List Movie)
    (range : Int × Int) : List FranchiseRow :=
  franchiseGenreList.filterMap fun g =>
    let fr := franchiseRatings isFr ds range g
    let st := standaloneRatings isFr ds range g
    if fr.length < 5 ∨ st.length < 10 then none
    else some
      { genre := g
        franchise_mean := smean fr
        standalone_mean := smean st
        difference := smean fr - smean st
        franchise_count := fr.length
        standalone_count := st.length
        t_statistic := (welchTP fr st).1
        p_value := (welchTP fr st).2
        cohens_d := cohensD fr st
        suspicious := 3 / 10 < smean fr - smean st ∧ (welchTP fr st).2 < 1 / 20 }

/-- Line 261: `pd.DataFrame(results).sort_values('difference', ascending=False)`. -/
noncomputable def detect_franchise_coordination (isFr : Movie → Bool)
    (welchTP : List Rat → List Rat → Rat × Rat) (ds : List Movie)
    (range : Int × Int) : List FranchiseRow :=
  List.insertionSort (keyGeReal fun r : FranchiseRow => ((r.difference : Rat) : Real))
    (franchiseRows isFr welchTP ds range)

/-- C6: the franchise detector compares tagged against untagged records
only within the fixed genre set Action / Sci-Fi / Adventure / Thriller /
Drama; its output is ordered descending by the raw franchise-minus-
standalone mean difference; an allowlisted genre with at least 5 franchise
and at least 10 standalone rated records is reported with `suspicious`
holding exactly when that difference exceeds 0.3 and the Welch p-value is
below 0.05, and a genre missing either floor is excluded. -/
theorem detect_franchise_coordination_spec (isFr : Movie → Bool)
    (welchTP : List Rat → List Rat → Rat × Rat) (ds : List Movie)
    (range : Int × Int) :
    (∀ row ∈ detect_franchise_coordination isFr welchTP ds range,
        row.genre ∈ franchiseGenreList) ∧
      (detect_franchise_coordination isFr welchTP ds range).Sorted
        (fun x y : FranchiseRow => y.difference ≤ x.difference) ∧
      ∀ g ∈ franchiseGenreList,
        (5 ≤ (franchiseRatings isFr ds range g).length →
          10 ≤ (standaloneRatings isFr ds range g).length →
          ∃ row ∈ detect_franchise_coordination isFr welchTP ds range,
            row.genre = g ∧
              row.difference = smean (franchiseRatings isFr ds range g)
                - smean (standaloneRatings isFr ds range g) ∧
              row.franchise_count = (franchiseRatings isFr ds range g).length ∧
              row.standalone_count = (standaloneRatings isFr ds range g).length ∧
              (row.suspicious ↔
                (3 / 10 < smean (franchiseRatings isFr ds range g)
                    - smean (standaloneRatings isFr ds range g) ∧
                  (welchTP (franchiseRatings isFr ds range g)
                    (standaloneRatings isFr ds range g)).2 < 1 / 20))) ∧
          ((franchiseRatings isFr ds range g).length < 5 ∨
              (standaloneRatings isFr ds range g).length < 10 →
            ∀ row ∈ detect_franchise_coordination isFr welchTP ds range,
              row.genre ≠ g) := by
  refine ⟨?_, ?_, ?_⟩
  · intro row hrow
    rw [detect_franchise_coordination, List.mem_insertionSort] at hrow
    unfold franchiseRows at hrow
    rcases List.mem_filterMap.mp hrow with ⟨g', hg', hfg⟩
    simp only [] at hfg
    by_cases hc : (franchiseRatings isFr ds range g').length < 5 ∨
        (standaloneRatings isFr ds range g').length < 10
    · rw [if_pos hc] at hfg
      exact Option.noConfusion hfg
    · rw [if_neg hc] at hfg
      have hrowg : row.genre = g' := by
        have h' := Option.some.inj hfg
        rw [← h']
      rw [hrowg]
      exact hg'
  · have hs := List.sorted_insertionSort
      (keyGeReal fun r : FranchiseRow => ((r.difference : Rat) : Real))
      (franchiseRows isFr welchTP ds range)
    rw [detect_franchise_coordination]
    refine hs.imp ?_
    intro x y hxy
    have hxy' : ((y.difference : Rat) : Real) ≤ ((x.difference : Rat) : Real) := hxy
    exact_mod_cast hxy'
  · intro g hg
    constructor
    · intro hf hst
      have hcond : ¬((franchiseRatings isFr ds range g).length < 5 ∨
          (standaloneRatings isFr ds range g).length < 10) := by
        push_neg
        exact ⟨hf, hst⟩
      refine ⟨{ genre := g
                franchise_mean := smean (franchiseRatings isFr ds range g)
                standalone_mean := smean (standaloneRatings isFr ds range g)
                difference := smean (franchiseRatings isFr ds range g)
                  - smean (standaloneRatings isFr ds range g)
                franchise_count := (franchiseRatings isFr ds range g).length
                standalone_count := (standaloneRatings isFr ds range g).length
                t_statistic := (welchTP (franchiseRatings isFr ds range g)
                  (standaloneRatings isFr ds range g)).1
                p_value := (welchTP (franchiseRatings isFr ds range g)
                  (standaloneRatings isFr ds range g)).2
                cohens_d := cohensD (franchiseRatings isFr ds range g)
                  (standaloneRatings isFr ds range g)
                suspicious := 3 / 10 < smean (franchiseRatings isFr ds range g)
                    - smean (standaloneRatings isFr ds range g) ∧
                  (welchTP (franchiseRatings isFr ds range g)
                    (standaloneRatings isFr ds range g)).2 < 1 / 20 },
              ?_, rfl, rfl, rfl, rfl, Iff.rfl⟩
      rw [detect_franchise_coordination, List.mem_insertionSort]
      unfold franchiseRows
      apply List.mem_filterMap.mpr
      refine ⟨g, hg, ?_⟩
      simp only []
      rw [if_neg hcond]
    · intro hlow row hrow hgen
      rw [detect_franchise_coordination, List.mem_insertionSort] at hrow
      unfold franchiseRows at hrow
      rcases List.mem_filterMap.mp hrow with ⟨g', hg', hfg⟩
      simp only [] at hfg
      by_cases hc : (franchiseRatings isFr ds range g').length < 5 ∨
          (standaloneRatings isFr ds range g').length < 10
      · rw [if_pos hc] at hfg
        exact Option.noConfusion hfg
      · rw [if_neg hc] at hfg
        have hrowg : row.genre = g' := by
          have h' := Option.some.inj hfg
          rw [← h']
        rw [hgen] at hrowg
        rw [← hrowg] at hc
        exact hc hlow

/-- A concrete dataset for the franchise detector: in genre "Action",
five rated recent movies titled "F" (franchise-tagged by the predicate
below) and ten rated recent standalone movies; genre "Drama" has no
records at all. -/
def dsFranchise : List Movie :=
  [ ⟨1, "F", some 2020, none, ["Action"], some 8, some 2000⟩
  , ⟨2, "F", some 2020, none, ["Action"], some 8, some 2000⟩
  , ⟨3, "F", some 2020, none, ["Action"], some 8, some 2000⟩
  , ⟨4, "F", some 2020, none, ["Action"], some 8, some 2000⟩
  , ⟨5, "F", some 2020, none, ["Action"], some 8, some 2000⟩
  , ⟨6, "s", some 2020, none, ["Action"], some 7, some 2000⟩
  , ⟨7, "s", some 2020, none, ["Action"], some 7, some 2000⟩
  , ⟨8, "s", some 2020, none, ["Action"], some 7, some 2000⟩
  , ⟨9, "s", some 2020, none, ["Action"], some 7, some 2000⟩
  , ⟨10, "s", some 2020, none, ["Action"], some 7, some 2000⟩
  , ⟨11, "s", some 2020, none, ["Action"], some 7, some 2000⟩
  , ⟨12, "s", some 2020, none, ["Action"], some 7, some 2000⟩
  , ⟨13, "s", some 2020, none, ["Action"], some 7, some 2000⟩
  , ⟨14, "s", some 2020, none, ["Action"], some 7, some 2000⟩
  , ⟨15, "s", some 2020, none, ["Action"], some 7, some 2000⟩ ]

/-- Witness for C6 at a concrete input: with the title-based tag "F" and a
constant p-value oracle, genre "Action" passes both floors and is
reported with the 0.3 / 0.05 decision, while genre "Drama" (no franchise
records) is excluded. -/
theorem detect_franchise_coordination_spec_witness :
    ("Action" ∈ franchiseGenreList ∧
      5 ≤ (franchiseRatings (fun m => decide (m.title = "F")) dsFranchise
        (2019, 2024) "Action").length ∧
      10 ≤ (standaloneRatings (fun m => decide (m.title = "F")) dsFranchise
        (2019, 2024) "Action").length ∧
      ∃ row ∈ detect_franchise_coordination (fun m => decide (m.title = "F"))
          (fun _ _ => (0, 1)) dsFranchise (2019, 2024),
        row.genre = "Action" ∧
          row.difference =
            smean (franchiseRatings (fun m => decide (m.title = "F")) dsFranchise
                (2019, 2024) "Action")
              - smean (standaloneRatings (fun m => decide (m.title = "F")) dsFranchise
                (2019, 2024) "Action") ∧
          row.franchise_count = (franchiseRatings (fun m => decide (m.title = "F"))
            dsFranchise (2019, 2024) "Action").length ∧
          row.standalone_count = (standaloneRatings (fun m => decide (m.title = "F"))
            dsFranchise (2019, 2024) "Action").length ∧
          (row.suspicious ↔
            (3 / 10 <
                smean (franchiseRatings (fun m => decide (m.title = "F")) dsFranchise
                    (2019, 2024) "Action")
                  - smean (standaloneRatings (fun m => decide (m.title = "F")) dsFranchise
                    (2019, 2024) "Action") ∧
              ((fun (_ _ : List Rat) => ((0 : Rat), (1 : Rat)))
                  (franchiseRatings (fun m => decide (m.title = "F")) dsFranchise
                    (2019, 2024) "Action")
                  (standaloneRatings (fun m => decide (m.title = "F")) dsFranchise
                    (2019, 2024) "Action")).2 < 1 / 20))) ∧
      ("Drama" ∈ franchiseGenreList ∧
        (franchiseRatings (fun m => decide (m.title = "F")) dsFranchise
          (2019, 2024) "Drama").length < 5 ∧
        ∀ row ∈ detect_franchise_coordination (fun m => decide (m.title = "F"))
            (fun _ _ => (0, 1)) dsFranchise (2019, 2024),
          row.genre ≠ "Drama") :=
  ⟨⟨by decide, by decide, by decide,
      (((detect_franchise_coordination_spec (fun m => decide (m.title = "F"))
            (fun _ _ => (0, 1)) dsFranchise (2019, 2024)).2.2 "Action"
          (by decide)).1 (by decide) (by decide))⟩,
    ⟨by decide, by decide,
      (((detect_franchise_coordination_spec (fun m => decide (m.title = "F"))
            (fun _ _ => (0, 1)) dsFranchise (2019, 2024)).2.2 "Drama"
          (by decide)).2 (Or.inl (by decide)))⟩⟩

/-- Leading-digit extraction with structural fuel (`firstDigitAux n n`
reaches a single digit because each step divides by 10). -/
def firstDigitAux : Nat → Nat → Nat
  | 0, n => n
  | fuel + 1, n => if n < 10 then n else firstDigitAux fuel (n / 10)

/-- The most significant decimal digit of a vote count — line 147's
`int(str(num_votes)[0])` (`0` only for a zero count; line 148 drops those
rows). -/
def firstDigit (n : Nat) : Nat :=
  firstDigitAux n n

/-- Lines 141-144 of `detect_vote_clustering`: the recent rows with a
non-null vote count. -/
def benfordRecent (ds : List Movie) (range : Int × Int) : List Movie :=
  (recentMovies ds range).filter fun m => m.num_votes.isSome

/-- Lines 147-148: the `first_digit` column with the zero-digit rows
dropped. -/
def benfordDigits (ds : List Movie) (range : Int × Int) : List Nat :=
  (((benfordRecent ds range).filterMap fun m => m.num_votes).map firstDigit).filter
    fun d => decide (0 < d)

/-- Line 151, `value_counts().sort_index()`: the distinct observed digits
in ascending order (leading digits always lie in 0-9). -/
def presentDigits (l : List Nat) : List Nat :=
  (List.range 10).filter fun d => decide (d ∈ l)

/-- Lines 151-152: the observed percentages, one entry per *occurring*
digit, in ascending digit order. -/
def observedPct (l : List Nat) : List Rat :=
  (presentDigits l).map fun d => ((l.count d : Rat) / (l.length : Rat)) * 100

/-- Lines 155-156: `observed_full = np.zeros(9);
observed_full[:len(observed_pct)] = observed_pct` — the dense percentage
vector padded with zero bins **at the tail** to nine entries. -/
def benfordObserved (ds : List Movie) (range : Int × Int) : List Rat :=
  observedPct (benfordDigits ds range)
    ++ List.replicate (9 - (observedPct (benfordDigits ds range)).length) 0

/-- Line 27: the theoretical Benford percentages, indexed by leading
digit 1-9. -/
def BENFORD_EXPECTED : List Rat :=
  [30.1, 17.6, 12.5, 9.7, 7.9, 6.7, 5.8, 5.1, 4.6]

/-- Line 159: the statistic of `stats.chisquare(observed_full,
BENFORD_EXPECTED)`, `sum((obs - exp)² / exp)` (its gamma-tail p-value is
carried no further). -/
def chiSquareStat (obs expd : List Rat) : Rat :=
  ((obs.zip expd).map fun p => (p.1 - p.2) ^ 2 / p.2).sum

/-- Line 159 applied to the padded observed vector. -/
def detect_vote_clustering_chi2 (ds : List Movie) (range : Int × Int) : Rat :=
  chiSquareStat (benfordObserved ds range) BENFORD_EXPECTED

/-- A two-movie dataset whose vote counts are 100 and 300: the observed
leading digits are 1 and 3, and digit 2 never occurs. -/
def dsBenford : List Movie :=
  [ ⟨1, "a", some 2020, none, [], some 7, some 100⟩
  , ⟨2, "b", some 2020, none, [], some 7, some 300⟩ ]

/-- C5 evaluated at the failing input: on `dsBenford` the padded observed
vector is `[50, 50, 0, …]`, so the entry at digit 2's position holds 50
although no vote count has leading digit 2 (its true share is 0%), and
digit 3's position holds 0 although half the counts lead with 3 — the
zero bins are appended at the tail instead of being inserted at the
missing digit, misaligning the vector with the digit-indexed Benford
reference it is chi-square tested against. -/
theorem benford_padding_misaligned :
    benfordObserved dsBenford (2019, 2024) = [50, 50, 0, 0, 0, 0, 0, 0, 0] ∧
      (benfordDigits dsBenford (2019, 2024)).count 2 = 0 ∧
      (benfordDigits dsBenford (2019, 2024)).count 3 = 1 := by
  have hd : benfordDigits dsBenford (2019, 2024) = [1, 3] := by decide
  have hp : presentDigits [1, 3] = [1, 3] := by decide
  have ho : observedPct [1, 3] = [50, 50] := by
    rw [observedPct, hp]
    norm_num [List.count_cons, List.count_nil]
  refine ⟨?_, by decide, by decide⟩
  rw [benfordObserved, hd, ho]
  rfl

/-- A pandas dataframe as the analysis functions receive it: the
fixed-schema rows together with the derived Boolean columns previously
attached to it. -/
structure DataFrame where
  rows : List Movie
  extra : List (String × List Bool)
deriving DecidableEq, Repr

/-- pandas column assignment `df[name] = vals` on an existing frame:
overwrite the column if present, else attach it. -/
def setCol (df : DataFrame) (name : String) (vals : List Bool) : DataFrame :=
  { rows := df.rows
    extra :=
      if name ∈ df.extra.map fun p => p.1 then
        df.extra.map fun p => if p.1 = name then (name, vals) else p
      else df.extra ++ [(name, vals)] }

/-- Lines 367-369 of `analyze_documentary_manipulation` as an effect on
the caller's dataframe: the function's first statement assigns the
derived column directly to the input frame, `master_df['is_doc'] =
master_df['genres'].apply(lambda g: 'Documentary' in g ...)`, with no
copy; every later step (lines 371-420) works on `.copy()` subsets
(`recent_docs`, `historical_docs`) and a returned dictionary, leaving the
input otherwise untouched — so the caller's frame after the call is the
input with the `is_doc` column attached. -/
def analyze_documentary_manipulation_frame (df : DataFrame) : DataFrame :=
  setCol df "is_doc" (df.rows.map fun m => decide ("Documentary" ∈ m.genres))

/-- C9 evaluated at the failing input: a dataframe holding one movie and
no derived columns comes back from the documentary drilldown with a new
`is_doc` column — the call mutates the caller's dataset, which therefore
does not have exactly the columns it had before the call. -/
theorem documentary_mutates_input :
    (analyze_documentary_manipulation_frame
        ⟨[⟨1, "m", some 2020, none, ["Documentary"], some 7, some 100⟩], []⟩).extra
        = [("is_doc", [true])] ∧
      analyze_documentary_manipulation_frame
          ⟨[⟨1, "m", some 2020, none, ["Documentary"], some 7, some 100⟩], []⟩ ≠
        ⟨[⟨1, "m", some 2020, none, ["Documentary"], some 7, some 100⟩], []⟩ := by
  decide

/-- Lines 382-383: the derived vote-efficiency value
`imdb_rating / (num_votes / 1000)` — an unguarded float division, applied
row-wise to the recent and historical documentary subsets.  The quotient
is a finite float exactly when numerator and denominator are actual
numbers and the denominator is nonzero, so NaN/infinity outcomes (null
rating, null votes, zero votes) are modelled as `none`. -/
def voteEfficiency (rating : Option Rat) (votes : Option Nat) : Option Rat :=
  match rating, votes with
  | some r, some v =>
      if ((v : Rat) / 1000) = 0 then none else some (r / ((v : Rat) / 1000))
  | _, _ => none

/-- Line 371-374: the recent documentary subset (a `.copy()`). -/
def recentDocs (ds : List Movie) (range : Int × Int) : List Movie :=
  (recentMovies ds range).filter fun m => decide ("Documentary" ∈ m.genres)

/-- Line 376-379: the historical documentary subset (a `.copy()`). -/
def historicalDocs (ds : List Movie) (range : Int × Int) : List Movie :=
  (historicalMovies ds range).filter fun m => decide ("Documentary" ∈ m.genres)

/-- Line 382: the `vote_efficiency` column of the recent documentary
subset. -/
def recentDocsEfficiency (ds : List Movie) (range : Int × Int) : List (Option Rat) :=
  (recentDocs ds range).map fun m => voteEfficiency m.imdb_rating m.num_votes

/-- Line 383: the `vote_efficiency` column of the historical documentary
subset. -/
def historicalDocsEfficiency (ds : List Movie) (range : Int × Int) : List (Option Rat) :=
  (historicalDocs ds range).map fun m => voteEfficiency m.imdb_rating m.num_votes

/-- C10: for a rated record the unguarded vote-efficiency division yields
a well-defined finite value exactly when the record's vote count is
strictly positive — and the data model admits vote count 0, for which the
value is not finite. -/
theorem voteEfficiency_defined_iff (r : Rat) (v : Nat) :
    ((voteEfficiency (some r) (some v)).isSome ↔ 0 < v) ∧
      voteEfficiency (some r) (some 0) = none := by
  constructor
  · unfold voteEfficiency
    constructor
    · intro h
      by_contra hv
      push_neg at hv
      have hv0 : v = 0 := Nat.le_zero.mp hv
      subst hv0
      norm_num at h
    · intro hv
      have hne : ((v : Rat) / 1000) ≠ 0 := by
        have hvq : (0 : Rat) < (v : Rat) := by exact_mod_cast hv
        positivity
      simp [hne]
  · unfold voteEfficiency
    norm_num
